import Mathlib

/-!
Verification development for `src/provisioning-tool/automagic.py`, the
provisioning orchestration core: role assignment across dd-wrt control
devices (`ddwrt_choose_roles`), mode programming (`ddwrt_program_mode`,
`ddwrt_set_ap_mode`, `ddwrt_set_sta_mode`), the convergence drop-wait loop
inside `provision_list`, the OTA flash state machine (`flash_device`) and
the provision-list run sequencing (`check_for_device_queue`,
`provision_list`, `finish_up_device`).

The embedding is shallow: each Python function becomes an executable Lean
function over explicit state; network reads and waits become oracle
parameters describing what each poll or attempt observed; `sys.exit`
paths and uncaught exceptions become explicit terminal results; wall-clock
reads (`time.time()`) become a monotone `Nat` counter threaded through the
run; Python dict keys that may be absent become `Option` fields.
-/

/-! ## Role coordinator (`ddwrt_choose_roles`, automagic.py lines 1014-1048) -/

/-- RouterNode models one connected control device as built by
`ddwrt_connect_to_known_router`: `apCapable` is the presence of the
learned `'ap'` profile in `router_db`, `staCapable` the presence of
`'sta'`, and `currentMode` the value read from `nvram get wl_mode`. -/
structure RouterNode where
  apCapable : Bool
  staCapable : Bool
  currentMode : String
deriving DecidableEq

/-- RolesResult models the possible outcomes of `ddwrt_choose_roles`:
chosen node indices for the AP and STA slots, one of the two `sys.exit`
paths for a missing capability (lines 1029-1034), or an uncaught Python
`IndexError` from indexing position 0 of an empty candidate list. -/
inductive RolesResult where
  | ok (apIdx staIdx : Nat)
  | errNoAp
  | errNoSta
  | indexError
deriving DecidableEq

/-- idxWhereAux collects the indices (counting from `i`) of the nodes
satisfying `p`, mirroring `for i in range(len(nodes)): if p: xs.append(i)`
at lines 1024-1028. -/
def idxWhereAux (p : RouterNode → Bool) : Nat → List RouterNode → List Nat
  | _, [] => []
  | i, n :: ns =>
    if p n then i :: idxWhereAux p (i + 1) ns else idxWhereAux p (i + 1) ns

/-- idxWhere lists the indices of the nodes satisfying `p`. -/
def idxWhere (p : RouterNode → Bool) (ns : List RouterNode) : List Nat :=
  idxWhereAux p 0 ns

/-- ddwrt_choose_roles embeds lines 1014-1048: candidate index lists are
built for AP capability, STA capability, current AP mode and current STA
mode; an empty capability list exits the program; with more than one node
the branch chain picks indices (`xs[0]` on an empty Python list raises
IndexError); otherwise the defaults `ap_node = 0`,
`sta_node = len(nodes) - 1` stand.  Note that the `len(current_sta) < 2`
branch reads `sta_capable[0]`, exactly as the source does. -/
def ddwrt_choose_roles (nodes : List RouterNode) : RolesResult :=
  let ap_capable := idxWhere (fun n => n.apCapable) nodes
  let sta_capable := idxWhere (fun n => n.staCapable) nodes
  let current_ap := idxWhere (fun n => n.currentMode == "ap") nodes
  let current_sta := idxWhere (fun n => n.currentMode == "sta") nodes
  if ap_capable.length == 0 then RolesResult.errNoAp
  else if sta_capable.length == 0 then RolesResult.errNoSta
  else if nodes.length > 1 then
    if ap_capable.length < 2 then
      match ap_capable with
      | [] => RolesResult.indexError
      | a :: _ => RolesResult.ok a ((a + 1) % 2)
    else if sta_capable.length < 2 then
      match sta_capable with
      | [] => RolesResult.indexError
      | s :: _ => RolesResult.ok ((s + 1) % 2) s
    else if current_ap.length < 2 then
      match current_ap with
      | [] => RolesResult.indexError
      | a :: _ => RolesResult.ok a ((a + 1) % 2)
    else if current_sta.length < 2 then
      match sta_capable with
      | [] => RolesResult.indexError
      | s :: _ => RolesResult.ok ((s + 1) % 2) s
    else RolesResult.ok 0 (nodes.length - 1)
  else RolesResult.ok 0 (nodes.length - 1)

/-! ## Mode programming (`ddwrt_program_mode`, lines 940-958) -/

/-- DdwrtCmd classifies the side-effecting commands `ddwrt_program_mode`
sends: nvram set/unset/commit, the fast same-mode service restart of line
951, and the full mode-change sequence of lines 954-958 (`apply.cgi`
POST, connection resync, radio cycle). -/
inductive DdwrtCmd where
  | nvramSet (key value : String)
  | nvramUnset (key : String)
  | nvramCommit
  | fastRestart
  | applyTake
  | syncConn
  | radioCycle
deriving DecidableEq

/-- DdwrtConn models the connection dictionary `cn`: the cached
`current_mode` and the learned per-mode profile lookup
`cn['router'][mode][key]`. -/
structure DdwrtConn where
  current_mode : String
  router : String → String → String

/-- ddwrt_program_mode embeds lines 940-958 as a state transformer
returning the updated connection and the trace of commands issued, in
source order: nvram sets from `pgm`, profile carry-over sets from
`from_db`, unsets from `deletes`, one commit, and then either the fast
same-mode restart or the full apply sequence, which also updates the
cached `current_mode`. -/
def ddwrt_program_mode (cn : DdwrtConn) (pgm : List (String × String))
    (from_db : List String) (deletes : List String) : DdwrtConn × List DdwrtCmd :=
  let mode := (pgm.lookup "wl_mode").getD ""
  let setCmds := pgm.map (fun p => DdwrtCmd.nvramSet p.1 p.2)
  let dbCmds := from_db.map (fun k => DdwrtCmd.nvramSet k (cn.router mode k))
  let delCmds := deletes.map (fun k => DdwrtCmd.nvramUnset k)
  let pre := setCmds ++ dbCmds ++ delCmds ++ [DdwrtCmd.nvramCommit]
  if cn.current_mode == mode then
    (cn, pre ++ [DdwrtCmd.fastRestart])
  else
    ({ cn with current_mode := mode },
      pre ++ [DdwrtCmd.applyTake, DdwrtCmd.syncConn, DdwrtCmd.radioCycle])

/-- ap_mode_pgm is the literal nvram program written by
`ddwrt_set_ap_mode` (lines 961-966), in source order. -/
def ap_mode_pgm (ssid password : String) : List (String × String) :=
  [("pptp_use_dhcp", "1"), ("wan_gateway", "0.0.0.0"), ("wan_ipaddr", "0.0.0.0"),
   ("wan_netmask", "0.0.0.0"), ("wan_proto", "disabled"), ("wl0_akm", "psk psk2"),
   ("wl0_mode", "ap"), ("wl0_nctrlsb", "none"), ("wl0_security_mode", "psk psk2"),
   ("wl0_ssid", ssid), ("wl_ssid", ssid), ("wl0_wpa_psk", password),
   ("wl_mode", "ap"), ("dns_redirect", "1"), ("dnsmasq_enable", "0")]

/-- ap_mode_from_db lists the hardware passthrough keys of line 967. -/
def ap_mode_from_db : List String :=
  ["wl0_hw_rxchain", "wl0_hw_txchain", "wan_hwaddr"]

/-- ap_mode_deletes lists the keys unset for AP mode (line 968). -/
def ap_mode_deletes : List String :=
  ["wan_ipaddr_buf", "wan_ipaddr_static", "wan_netmask_static", "wl0_vifs"]

/-- ddwrt_set_ap_mode embeds lines 960-969. -/
def ddwrt_set_ap_mode (cn : DdwrtConn) (ssid password : String) :
    DdwrtConn × List DdwrtCmd :=
  ddwrt_program_mode cn (ap_mode_pgm ssid password) ap_mode_from_db ap_mode_deletes

/-- sta_mode_pgm is the literal nvram program written by
`ddwrt_set_sta_mode` (lines 972-978), in source order. -/
def sta_mode_pgm (ssid : String) : List (String × String) :=
  [("pptp_use_dhcp", "0"), ("wan_gateway", "192.168.33.1"), ("wan_ipaddr", "192.168.33.10"),
   ("wan_ipaddr_static", ".."), ("wan_netmask", "255.255.255.0"), ("wan_netmask_static", ".."),
   ("wan_proto", "static"), ("wl0_akm", "disabled"), ("wl0_mode", "sta"),
   ("wl0_nctrlsb", ""), ("wl0_security_mode", "disabled"), ("wl0_vifs", ""),
   ("wl_mode", "sta"), ("wl0_ssid", ssid), ("wl_ssid", ssid),
   ("dns_redirect", "1"), ("dnsmasq_enable", "0"), ("wan_ipaddr_buf", "192.168.33.10")]

/-- ddwrt_set_sta_mode embeds lines 971-981. -/
def ddwrt_set_sta_mode (cn : DdwrtConn) (ssid : String) : DdwrtConn × List DdwrtCmd :=
  ddwrt_program_mode cn (sta_mode_pgm ssid)
    ["sta_ifname", "wl0_hw_rxchain", "wl0_hw_txchain", "wan_hwaddr"]
    ["wl0_wpa_psk"]

/-! ## Convergence drop-wait loop (`provision_list`, lines 1966-1986) -/

/-- drop_wait_aux embeds the loop `while misses < 3 and passes < 60`:
`scan k` is the (prefix-filtered) survey result of the k-th poll, where
a poll seeing the factory SSID resets `misses` to 0 and a poll missing
it increments `misses`.  The fuel argument is `60 - passes`, so fuel 0 is
the `passes < 60` bound; the returned pair is the final
`(misses, passes)`. -/
def drop_wait_aux (scan : Nat → List String) (ssid : String) :
    Nat → Nat → Nat → Nat × Nat
  | misses, passes, 0 => (misses, passes)
  | misses, passes, fuel + 1 =>
    if misses < 3 then
      if ssid ∈ scan (passes + 1) then drop_wait_aux scan ssid 0 (passes + 1) fuel
      else drop_wait_aux scan ssid (misses + 1) (passes + 1) fuel
    else (misses, passes)

/-- ddwrt_drop_wait runs the drop-wait loop with the source constants:
debounce 3, at most 60 polls. -/
def ddwrt_drop_wait (scan : Nat → List String) (ssid : String) : Nat × Nat :=
  drop_wait_aux scan ssid 0 0 60

/-- drop_departed is the post-loop test `if misses >= 3` of line 1985:
true means the device is declared gone from its factory network, false
is a failed transition attempt. -/
def drop_departed (scan : Nat → List String) (ssid : String) : Bool :=
  decide (3 ≤ (ddwrt_drop_wait scan ssid).1)

/-! ## OTA flash state machine (`flash_device`, lines 1538-1595) -/

/-- OtaReading models one JSON response of `GET /ota`: the `status` field
and the `old_version` field. -/
structure OtaReading where
  status : String
  old_version : String
deriving DecidableEq

/-- FlashOutcome names the distinct terminal points of `flash_device`:
`checkFailed` (line 1544), `skip` (line 1548, device already on the
requested version), `abortUpdating` (line 1551, conflicting update in
progress), `triggerFailed` (line 1594), `noWait` (line 1555,
`ota_timeout == 0` disables polling), `success` (line 1577),
`failureMismatch` (line 1581, version changed but does not match the
manifest), `failureUnchanged` (line 1589, reached by the `break` of line
1583 or by wall-clock exhaustion), `timeoutNoUpdating` (line 1587, more
than 10 polls without ever seeing "updating") and `pollReadFailed`
(line 1564). -/
inductive FlashOutcome where
  | checkFailed
  | skip
  | abortUpdating
  | triggerFailed
  | noWait
  | success
  | failureMismatch
  | failureUnchanged
  | timeoutNoUpdating
  | pollReadFailed
deriving DecidableEq

/-- flash_poll embeds the polling loop of lines 1557-1590.  `requested`
is `new_version` (`none` when "latest" was requested and no manifest
build id is known), `origVersion` the version read before triggering,
`poll k` the k-th status read, `seen` the `seen_updating` flag, `passes`
the poll counter, and the last argument the number of loop iterations the
wall-clock budget `ota_timeout` still allows. -/
def flash_poll (requested : Option String) (origVersion : String)
    (poll : Nat → Option OtaReading) : Bool → Nat → Nat → FlashOutcome
  | _, _, 0 => FlashOutcome.failureUnchanged
  | seen, passes, fuel + 1 =>
    match poll (passes + 1) with
    | none => FlashOutcome.pollReadFailed
    | some nr =>
      if nr.status == "updating" then
        flash_poll requested origVersion poll true (passes + 1) fuel
      else if seen then
        if requested.isNone || !(origVersion == nr.old_version) then
          if requested.isNone || requested == some nr.old_version then
            FlashOutcome.success
          else FlashOutcome.failureMismatch
        else FlashOutcome.failureUnchanged
      else if passes + 1 > 10 then FlashOutcome.timeoutNoUpdating
      else flash_poll requested origVersion poll false (passes + 1) fuel

/-- flash_device embeds lines 1538-1595.  `check` is the initial
`GET /ota` read, `triggerOk` whether `ota_flash` succeeded,
`otaTimeoutZero` whether `ota_timeout == 0`, `poll` the subsequent status
reads and `fuel` the iteration budget derived from `ota_timeout`.  The
second component records whether the update command was issued
(`ota_flash` reached at line 1552). -/
def flash_device (check : Option OtaReading) (requested : Option String)
    (triggerOk otaTimeoutZero : Bool) (poll : Nat → Option OtaReading)
    (fuel : Nat) : FlashOutcome × Bool :=
  match check with
  | none => (FlashOutcome.checkFailed, false)
  | some r =>
    if requested == some r.old_version then (FlashOutcome.skip, false)
    else if r.status == "updating" then (FlashOutcome.abortUpdating, false)
    else if triggerOk then
      if otaTimeoutZero then (FlashOutcome.noWait, true)
      else (flash_poll requested r.old_version poll false 0 fuel, true)
    else (FlashOutcome.triggerFailed, true)

/-! ## Provision-list run (`check_for_device_queue` lines 1341-1353,
`provision_list` lines 1909-2030, `finish_up_device` lines 1408-1421) -/

/-- InstrRec models one provisioning instruction record of the queue.
An absent dict key is `none`: `ssid` is `'SSID'`, `group` is `'Group'`,
the four lifecycle stamps are `'InsertTime'`, `'InProgressTime'`,
`'CompletedTime'`, `'ConfirmedTime'`, and `factorySsid` is the
`'factory_ssid'` field written at line 1937.  Payload fields that the
sequencing never branches on (password, static addressing, metadata)
are omitted. -/
structure InstrRec where
  ssid : Option String
  group : Option String
  insertTime : Option Nat
  inProgressTime : Option Nat
  completedTime : Option Nat
  confirmedTime : Option Nat
  factorySsid : Option String
deriving DecidableEq

/-- InstrEnv is the per-instruction network oracle: `factorySsid` is the
first discovered factory SSID `device_ssids[0]` (the discovery loop at
lines 1928-2029 spins until one appears), `dropOk k` is whether the k-th
programming attempt's drop-wait loop reached `misses >= 3`, `locateOk`
whether the device was then found on the target network (lines 2009-2016),
and `mac` the hardware identity from the device status used as the
device-record key (line 1420). -/
structure InstrEnv where
  factorySsid : String
  dropOk : Nat → Bool
  locateOk : Bool
  mac : String

/-- RunExit names how a `provision_list` run ends: the normal return of
line 2030, the two `sys.exit` paths of `check_for_device_queue`, the
exits of `ddwrt_choose_roles` (including its uncaught IndexError), the
`sys.exit` at line 1990 after 10 failed programming attempts, and the
`sys.exit` at line 2016 when the device cannot be located on the target
network. -/
inductive RunExit where
  | normal
  | exitEmptyQueue
  | exitNoReady
  | exitConfigNoAp
  | exitConfigNoSta
  | exitRolesIndexError
  | exitAttemptsExhausted
  | exitLocateFailed
deriving DecidableEq

/-- RunOut is the observable final state of a run: how it ended, the last
persisted contents of the instruction queue file, the last persisted
device-record store, and the `setup_count` / `success_count` totals. -/
structure RunOut where
  exit : RunExit
  persisted : List InstrRec
  db : List (String × InstrRec)
  setup : Nat
  success : Nat
deriving DecidableEq

/-- groupReady is the group filter of `check_for_device_queue` line 1347:
with no group every record passes, with a group the record must carry
that exact group. -/
def groupReady (group : Option String) (r : InstrRec) : Bool :=
  match group with
  | none => true
  | some g => r.group == some g

/-- queueReady is the per-record readiness test of
`check_for_device_queue` (line 1347, `include_complete = False`). -/
def queueReady (group : Option String) (r : InstrRec) : Bool :=
  r.completedTime.isNone && groupReady group r

/-- check_for_device_queue embeds lines 1341-1353: an empty queue exits,
a queue with no ready record exits, otherwise processing proceeds. -/
def check_for_device_queue (dq : List InstrRec) (group : Option String) :
    Option RunExit :=
  if dq.length == 0 then some RunExit.exitEmptyQueue
  else if dq.any (queueReady group) then none
  else some RunExit.exitNoReady

/-- recSkipped is the `continue` test of lines 1918-1921: a record is
skipped when it already has `CompletedTime`, when a group is requested
and the record is not in it, or when it has no `SSID`. -/
def recSkipped (group : Option String) (r : InstrRec) : Bool :=
  !r.completedTime.isNone || (group.isSome && !(groupReady group r)) || r.ssid.isNone

/-- attemptsResult models the attempts loop of lines 1941-1992: attempts
run in order 1, 2, …; the first attempt whose drop-wait converged breaks
the loop; after the 10th failed attempt the program exits.  The result is
the first convergent attempt number among 1..10, if any. -/
def attemptsResult (dropOk : Nat → Bool) : Option Nat :=
  ((List.range 10).map (fun i => i + 1)).find? dropOk

/-- stepR1 is the record state persisted at line 1939: the discovered
factory SSID of line 1937 and the `InProgressTime` stamp of line 1938,
taken at clock `c`. -/
def stepR1 (c : Nat) (r : InstrRec) (e : InstrEnv) : InstrRec :=
  { r with factorySsid := some e.factorySsid, inProgressTime := some c }

/-- stepR2 adds the `CompletedTime` stamp of line 2006, taken at the
next clock tick; it is the state persisted at line 2019. -/
def stepR2 (c : Nat) (r : InstrRec) (e : InstrEnv) : InstrRec :=
  { stepR1 c r e with completedTime := some (c + 1) }

/-- stepR3 adds the `ConfirmedTime` stamp of line 1410 inside
`finish_up_device`; it is the state written to the device-record store
at line 1420. -/
def stepR3 (c : Nat) (r : InstrRec) (e : InstrEnv) : InstrRec :=
  { stepR2 c r e with confirmedTime := some (c + 2) }

/-- dbSet is Python dict assignment `device_db[mac] = rec`: replace the
entry when the key exists, otherwise append it. -/
def dbSet (db : List (String × InstrRec)) (k : String) (v : InstrRec) :
    List (String × InstrRec) :=
  if db.any (fun p => p.1 == k) then
    db.map (fun p => if p.1 == k then (k, v) else p)
  else db ++ [(k, v)]

/-- runLoop embeds the instruction loop of lines 1917-2029.  Arguments
after the oracle: records already handled (in order), records still to
handle, the last persisted queue contents, the device-record store, the
clock, `setup_count` and `success_count`.  A processed instruction either
aborts the whole run at line 1990 (`sys.exit` after 10 failed attempts,
queue last persisted at line 1939), aborts it at line 2016 (`sys.exit`
when the device is not found, the `CompletedTime` of line 2006 never
persisted because the write of line 2019 is not reached), or completes:
queue persisted with `CompletedTime`, then `finish_up_device` stamps
`ConfirmedTime` and writes the device record keyed by the device mac. -/
def runLoop (group : Option String) (env : Nat → InstrEnv) :
    List InstrRec → List InstrRec → List InstrRec → List (String × InstrRec) →
    Nat → Nat → Nat → RunOut
  | _done, [], persisted, db, _c, setup, succ =>
    { exit := RunExit.normal, persisted := persisted, db := db,
      setup := setup, success := succ }
  | done, r :: rest, persisted, db, c, setup, succ =>
    if recSkipped group r then
      runLoop group env (done ++ [r]) rest persisted db c setup succ
    else if (attemptsResult (env setup).dropOk).isNone then
      { exit := RunExit.exitAttemptsExhausted,
        persisted := done ++ stepR1 c r (env setup) :: rest, db := db,
        setup := setup + 1, success := succ }
    else if (env setup).locateOk then
      runLoop group env (done ++ [stepR3 c r (env setup)]) rest
        (done ++ stepR2 c r (env setup) :: rest)
        (dbSet db (env setup).mac (stepR3 c r (env setup)))
        (c + 3) (setup + 1) (succ + 1)
    else
      { exit := RunExit.exitLocateFailed,
        persisted := done ++ stepR1 c r (env setup) :: rest, db := db,
        setup := setup + 1, success := succ }

/-- provision_list embeds lines 1909-2030: `check_for_device_queue`
first (line 1912), then `ddwrt_choose_roles` (line 1913) whose failure
ends the run before any instruction is touched, then the instruction
loop.  `c0` is the wall clock at run start; every `time.time()` read
advances it, so recorded stamps are monotone. -/
def provision_list (queue : List InstrRec) (db0 : List (String × InstrRec))
    (nodes : List RouterNode) (group : Option String) (env : Nat → InstrEnv)
    (c0 : Nat) : RunOut :=
  match check_for_device_queue queue group with
  | some e =>
    { exit := e, persisted := queue, db := db0, setup := 0, success := 0 }
  | none =>
    match ddwrt_choose_roles nodes with
    | RolesResult.errNoAp =>
      { exit := RunExit.exitConfigNoAp, persisted := queue, db := db0,
        setup := 0, success := 0 }
    | RolesResult.errNoSta =>
      { exit := RunExit.exitConfigNoSta, persisted := queue, db := db0,
        setup := 0, success := 0 }
    | RolesResult.indexError =>
      { exit := RunExit.exitRolesIndexError, persisted := queue, db := db0,
        setup := 0, success := 0 }
    | RolesResult.ok _ _ => runLoop group env [] queue queue db0 c0 0 0

/-! ## Timestamp predicates for the lifecycle invariant -/

/-- chainOk says: if the later stamp is present then the earlier one is
present too and does not exceed it. -/
def chainOk (earlier later : Option Nat) : Bool :=
  match later with
  | none => true
  | some t2 =>
    match earlier with
    | none => false
    | some t1 => decide (t1 ≤ t2)

/-- tsOrdered is the lifecycle invariant Insert ≤ InProgress ≤ Completed
≤ Confirmed, where a present stamp requires every earlier stamp to be
present and no later than it. -/
def tsOrdered (r : InstrRec) : Bool :=
  chainOk r.insertTime r.inProgressTime &&
  chainOk r.inProgressTime r.completedTime &&
  chainOk r.completedTime r.confirmedTime

/-- tsComplete says all four lifecycle stamps are present. -/
def tsComplete (r : InstrRec) : Bool :=
  r.insertTime.isSome && r.inProgressTime.isSome &&
  r.completedTime.isSome && r.confirmedTime.isSome

/-- stampLe bounds a stamp by the clock when present. -/
def stampLe (c : Nat) : Option Nat → Bool
  | none => true
  | some t => decide (t ≤ c)

/-- tsLe bounds all present stamps of a record by the clock. -/
def tsLe (c : Nat) (r : InstrRec) : Bool :=
  stampLe c r.insertTime && stampLe c r.inProgressTime &&
  stampLe c r.completedTime && stampLe c r.confirmedTime

/-! ## Role coordinator lemmas and claims C5, C10 -/

/-- idxWhereAux returns the empty list exactly on lists where no element
satisfies the test. -/
theorem idxWhereAux_eq_nil (p : RouterNode → Bool) :
    ∀ (ns : List RouterNode) (i : Nat),
      (∀ n ∈ ns, p n = false) → idxWhereAux p i ns = [] := by
  intro ns
  induction ns with
  | nil => intro i _; rfl
  | cons n ns ih =>
    intro i h
    have hn : p n = false := h n (List.mem_cons_self n ns)
    simp only [idxWhereAux, hn, Bool.false_eq_true, if_false]
    exact ih (i + 1) (fun m hm => h m (List.mem_cons_of_mem n hm))

/-- idxWhereAux is nonempty as soon as one element satisfies the test. -/
theorem idxWhereAux_ne_nil (p : RouterNode → Bool) :
    ∀ (ns : List RouterNode) (i : Nat),
      (∃ n ∈ ns, p n = true) → idxWhereAux p i ns ≠ [] := by
  intro ns
  induction ns with
  | nil => intro i h; rcases h with ⟨n, hn, _⟩; cases hn
  | cons n ns ih =>
    intro i h
    by_cases hn : p n = true
    · simp [idxWhereAux, hn]
    · have hn2 : p n = false := by
        cases hpn : p n
        · rfl
        · exact absurd hpn hn
      simp only [idxWhereAux, hn2, Bool.false_eq_true, if_false]
      rcases h with ⟨m, hm, hpm⟩
      rcases List.mem_cons.mp hm with h1 | h1
      · rw [h1] at hpm; rw [hn2] at hpm; cases hpm
      · exact ih (i + 1) ⟨m, h1, hpm⟩

/-- Role assignment exits with the no-AP error when no connected device
has a learned AP profile (lines 1029-1031). -/
theorem choose_roles_no_ap (nodes : List RouterNode)
    (h : ∀ n ∈ nodes, n.apCapable = false) :
    ddwrt_choose_roles nodes = RolesResult.errNoAp := by
  simp only [ddwrt_choose_roles, idxWhere]
  rw [idxWhereAux_eq_nil _ nodes 0 h]
  rfl

/-- Role assignment exits with the no-STA error when some device is
AP-capable but none has a learned STA profile (lines 1032-1034). -/
theorem choose_roles_no_sta (nodes : List RouterNode)
    (hap : ∃ n ∈ nodes, n.apCapable = true)
    (h : ∀ n ∈ nodes, n.staCapable = false) :
    ddwrt_choose_roles nodes = RolesResult.errNoSta := by
  simp only [ddwrt_choose_roles, idxWhere]
  rw [idxWhereAux_eq_nil _ nodes 0 h]
  have h1 : idxWhereAux (fun n => n.apCapable) 0 nodes ≠ [] :=
    idxWhereAux_ne_nil _ nodes 0 hap
  have h2 : ((idxWhereAux (fun n => n.apCapable) 0 nodes).length == 0) = false := by
    simp [List.length_eq_zero, h1]
  rw [h2]
  rfl

/-- C5: with one AP-only and one STA-only control device, in either
argument order and for any current modes, `ddwrt_choose_roles` picks the
AP-only device for the AP slot and the STA-only device for the STA slot;
a single dual-capable device is returned for both slots (indices into the
connected-node list identify the connection object). -/
theorem c5_role_assignment (m1 m2 : String) :
    ddwrt_choose_roles
        [⟨true, false, m1⟩, ⟨false, true, m2⟩] = RolesResult.ok 0 1 ∧
    ddwrt_choose_roles
        [⟨false, true, m1⟩, ⟨true, false, m2⟩] = RolesResult.ok 1 0 ∧
    ddwrt_choose_roles [⟨true, true, m1⟩] = RolesResult.ok 0 0 :=
  ⟨rfl, rfl, rfl⟩

/-- c5_role_assignment_witness evaluates the claim at concrete modes. -/
theorem c5_role_assignment_witness :
    ddwrt_choose_roles
        [⟨true, false, "ap"⟩, ⟨false, true, "sta"⟩] = RolesResult.ok 0 1 ∧
    ddwrt_choose_roles
        [⟨false, true, "sta"⟩, ⟨true, false, "ap"⟩] = RolesResult.ok 1 0 ∧
    ddwrt_choose_roles [⟨true, true, "sta"⟩] = RolesResult.ok 0 0 :=
  c5_role_assignment "ap" "sta"

/-- C10: with two control devices that are each both AP- and STA-capable
and neither currently in AP mode, `ddwrt_choose_roles` reaches
`current_ap[0]` on an empty list — Python raises an uncaught IndexError —
rather than returning an assignment or a typed configuration error. -/
theorem c10_roles_index_error (m1 m2 : String) (h1 : m1 ≠ "ap") (h2 : m2 ≠ "ap") :
    ddwrt_choose_roles [⟨true, true, m1⟩, ⟨true, true, m2⟩]
      = RolesResult.indexError := by
  have e1 : (m1 == "ap") = false := beq_eq_false_iff_ne.mpr h1
  have e2 : (m2 == "ap") = false := beq_eq_false_iff_ne.mpr h2
  simp [ddwrt_choose_roles, idxWhere, idxWhereAux, e1, e2]

/-- c10_roles_index_error_witness evaluates the claim with both devices
currently in STA mode. -/
theorem c10_roles_index_error_witness :
    ddwrt_choose_roles [⟨true, true, "sta"⟩, ⟨true, true, "sta"⟩]
      = RolesResult.indexError :=
  c10_roles_index_error "sta" "sta" (by decide) (by decide)

/-! ## Convergence drop-wait: claim C1 -/

/-- c1_scan is the scan sequence `[{X}, {X}, {}, {}, {}, {}]` of the
claim, extended with empty results: poll 1 and 2 see the factory SSID,
later polls do not. -/
def c1_scan : Nat → List String
  | 1 => ["X"]
  | 2 => ["X"]
  | _ => []

/-- drop_wait_aux stays at zero misses forever when the SSID is present
in every scan, consuming all fuel. -/
theorem drop_wait_aux_always_present (scan : Nat → List String) (ssid : String)
    (h : ∀ k, ssid ∈ scan k) :
    ∀ (fuel passes : Nat),
      drop_wait_aux scan ssid 0 passes fuel = (0, passes + fuel) := by
  intro fuel
  induction fuel with
  | zero => intro passes; rfl
  | succ n ih =>
    intro passes
    have hmem : ssid ∈ scan (passes + 1) := h (passes + 1)
    simp only [drop_wait_aux, if_pos (by decide : (0 : Nat) < 3), hmem, if_true,
      ih (passes + 1), Prod.mk.injEq, true_and]
    omega

/-- C1: the drop-wait loop with debounce 3 and at most 60 polls declares
departure exactly at the 5th poll for the scan sequence
`[{X}, {X}, {}, {}, {}, {}]` (three consecutive misses after the two
sightings), and for any scan sequence in which the SSID never disappears
all 60 polls are exhausted with zero misses and the wait reports a failed
transition attempt. -/
theorem c1_departure_debounce :
    (ddwrt_drop_wait c1_scan "X" = (3, 5) ∧ drop_departed c1_scan "X" = true) ∧
    ∀ (scan : Nat → List String) (ssid : String), (∀ k, ssid ∈ scan k) →
      ddwrt_drop_wait scan ssid = (0, 60) ∧ drop_departed scan ssid = false := by
  refine ⟨⟨by decide, by decide⟩, fun scan ssid h => ?_⟩
  have h60 := drop_wait_aux_always_present scan ssid h 60 0
  constructor
  · simpa [ddwrt_drop_wait] using h60
  · simp [drop_departed, ddwrt_drop_wait, h60]

/-- c1_departure_debounce_witness evaluates the never-disappearing case
on the constant scan that always shows the SSID. -/
theorem c1_departure_debounce_witness :
    ddwrt_drop_wait (fun _ => ["Y"]) "Y" = (0, 60) ∧
    drop_departed (fun _ => ["Y"]) "Y" = false :=
  c1_departure_debounce.2 (fun _ => ["Y"]) "Y" (fun _ => List.mem_singleton.mpr rfl)

/-! ## OTA flash: claims C3 and C4 -/

/-- c3_poll_success is the poll trace (updating,v1), (updating,v1),
(idle,v2), … of the claim's first sequence (its first element (idle,v1)
is the pre-trigger check read). -/
def c3_poll_success : Nat → Option OtaReading
  | 1 => some ⟨"updating", "v1"⟩
  | 2 => some ⟨"updating", "v1"⟩
  | _ => some ⟨"idle", "v2"⟩

/-- c3_poll_unchanged is the poll trace (updating,v1), (idle,v1), … of
the claim's second sequence. -/
def c3_poll_unchanged : Nat → Option OtaReading
  | 1 => some ⟨"updating", "v1"⟩
  | _ => some ⟨"idle", "v1"⟩

/-- c3_poll_idle is the poll trace that never reports "updating". -/
def c3_poll_idle : Nat → Option OtaReading
  | _ => some ⟨"idle", "v1"⟩

/-- C3: with requested version "latest" (no expected build id, `none`),
the sequence (idle,v1), (updating,v1), (updating,v1), (idle,v2) classifies
as success; with an explicit requested version and the sequence (idle,v1),
(updating,v1), (idle,v1) — version unchanged after the update cycle — as
the version-unchanged failure of line 1589; and a device that never
reports "updating" within the 10-check bound as the timeout of line 1587.
The fuel 300 is the default 300 s wall-clock budget. -/
theorem c3_flash_classification :
    flash_device (some ⟨"idle", "v1"⟩) none true false c3_poll_success 300
      = (FlashOutcome.success, true) ∧
    flash_device (some ⟨"idle", "v1"⟩) (some "v2") true false c3_poll_unchanged 300
      = (FlashOutcome.failureUnchanged, true) ∧
    flash_device (some ⟨"idle", "v1"⟩) none true false c3_poll_idle 300
      = (FlashOutcome.timeoutNoUpdating, true) :=
  ⟨by decide, by decide, by decide⟩

/-- C4: before triggering, `flash_device` reads {status, version}; when
the current version already equals the requested version it returns the
skip success without issuing the update command, and otherwise when the
status already reads "updating" it returns the abort failure without
issuing the update command (the version test of line 1546 runs first). -/
theorem c4_flash_precheck (r : OtaReading) (requested : Option String)
    (triggerOk otaTimeoutZero : Bool) (poll : Nat → Option OtaReading)
    (fuel : Nat) :
    (requested = some r.old_version →
      flash_device (some r) requested triggerOk otaTimeoutZero poll fuel
        = (FlashOutcome.skip, false)) ∧
    (requested ≠ some r.old_version → r.status = "updating" →
      flash_device (some r) requested triggerOk otaTimeoutZero poll fuel
        = (FlashOutcome.abortUpdating, false)) := by
  constructor
  · intro h
    simp [flash_device, h]
  · intro h hs
    simp [flash_device, beq_eq_false_iff_ne.mpr h, hs]

/-- c4_flash_precheck_witness evaluates both pre-check outcomes on
concrete readings. -/
theorem c4_flash_precheck_witness :
    flash_device (some ⟨"idle", "v1"⟩) (some "v1") true false (fun _ => none) 5
      = (FlashOutcome.skip, false) ∧
    flash_device (some ⟨"updating", "v1"⟩) (some "v2") true false (fun _ => none) 5
      = (FlashOutcome.abortUpdating, false) :=
  ⟨(c4_flash_precheck ⟨"idle", "v1"⟩ (some "v1") true false (fun _ => none) 5).1 rfl,
   (c4_flash_precheck ⟨"updating", "v1"⟩ (some "v2") true false (fun _ => none) 5).2
     (by decide) rfl⟩

/-! ## Mode programming: claim C7 -/

/-- ddwrt_program_mode caches the requested mode as the new current mode
on both paths. -/
theorem ddwrt_program_mode_current (cn : DdwrtConn) (pgm : List (String × String))
    (from_db deletes : List String) :
    (ddwrt_program_mode cn pgm from_db deletes).1.current_mode
      = (pgm.lookup "wl_mode").getD "" := by
  by_cases h : cn.current_mode = (pgm.lookup "wl_mode").getD ""
  · simp [ddwrt_program_mode, h]
  · simp [ddwrt_program_mode, beq_eq_false_iff_ne.mpr h]

/-- The full apply command appears in the trace of `ddwrt_program_mode`
exactly when the requested mode differs from the cached current mode. -/
theorem ddwrt_program_mode_applyTake (cn : DdwrtConn) (pgm : List (String × String))
    (from_db deletes : List String) :
    (DdwrtCmd.applyTake ∈ (ddwrt_program_mode cn pgm from_db deletes).2
      ↔ cn.current_mode ≠ (pgm.lookup "wl_mode").getD "") := by
  by_cases h : cn.current_mode = (pgm.lookup "wl_mode").getD ""
  · simp [ddwrt_program_mode, h]
  · simp [ddwrt_program_mode, beq_eq_false_iff_ne.mpr h, h]

/-- The fast same-mode restart appears in the trace exactly when the
requested mode equals the cached current mode. -/
theorem ddwrt_program_mode_fastRestart (cn : DdwrtConn) (pgm : List (String × String))
    (from_db deletes : List String) :
    (DdwrtCmd.fastRestart ∈ (ddwrt_program_mode cn pgm from_db deletes).2
      ↔ cn.current_mode = (pgm.lookup "wl_mode").getD "") := by
  by_cases h : cn.current_mode = (pgm.lookup "wl_mode").getD ""
  · simp [ddwrt_program_mode, h]
  · simp [ddwrt_program_mode, beq_eq_false_iff_ne.mpr h, h]

/-- C7: applying AP mode to a connection whose cached mode is already
"ap" issues the fast service restart and never the full apply sequence;
after any AP application the cached mode is "ap", so the second of two
consecutive AP applications with no intervening role change always takes
the fast path; the full apply appears exactly when the role actually
changes. -/
theorem c7_same_role_fast_path (cn : DdwrtConn) (s p s2 p2 : String) :
    (DdwrtCmd.applyTake ∉ (ddwrt_set_ap_mode (ddwrt_set_ap_mode cn s p).1 s2 p2).2 ∧
      DdwrtCmd.fastRestart ∈ (ddwrt_set_ap_mode (ddwrt_set_ap_mode cn s p).1 s2 p2).2) ∧
    (cn.current_mode = "ap" →
      DdwrtCmd.applyTake ∉ (ddwrt_set_ap_mode cn s p).2 ∧
      DdwrtCmd.fastRestart ∈ (ddwrt_set_ap_mode cn s p).2) ∧
    (DdwrtCmd.applyTake ∈ (ddwrt_set_ap_mode cn s p).2 ↔ cn.current_mode ≠ "ap") := by
  have hlook : ∀ a b : String, ((ap_mode_pgm a b).lookup "wl_mode").getD "" = "ap" :=
    fun a b => rfl
  have hfst : (ddwrt_set_ap_mode cn s p).1.current_mode = "ap" := by
    have := ddwrt_program_mode_current cn (ap_mode_pgm s p) ap_mode_from_db ap_mode_deletes
    rw [hlook s p] at this
    exact this
  refine ⟨⟨?_, ?_⟩, ?_, ?_⟩
  · intro hmem
    have := (ddwrt_program_mode_applyTake (ddwrt_set_ap_mode cn s p).1
      (ap_mode_pgm s2 p2) ap_mode_from_db ap_mode_deletes).mp hmem
    rw [hlook s2 p2] at this
    exact this hfst
  · apply (ddwrt_program_mode_fastRestart (ddwrt_set_ap_mode cn s p).1
      (ap_mode_pgm s2 p2) ap_mode_from_db ap_mode_deletes).mpr
    rw [hlook s2 p2]
    exact hfst
  · intro hap
    constructor
    · intro hmem
      have := (ddwrt_program_mode_applyTake cn
        (ap_mode_pgm s p) ap_mode_from_db ap_mode_deletes).mp hmem
      rw [hlook s p] at this
      exact this hap
    · apply (ddwrt_program_mode_fastRestart cn
        (ap_mode_pgm s p) ap_mode_from_db ap_mode_deletes).mpr
      rw [hlook s p]
      exact hap
  · have := ddwrt_program_mode_applyTake cn (ap_mode_pgm s p) ap_mode_from_db ap_mode_deletes
    rw [hlook s p] at this
    exact this

/-- c7_conn is a concrete connection currently in AP mode with a trivial
learned profile. -/
def c7_conn : DdwrtConn :=
  { current_mode := "ap", router := fun _ _ => "profile" }

/-- c7_same_role_fast_path_witness evaluates the same-role case on a
connection already in AP mode. -/
theorem c7_same_role_fast_path_witness :
    DdwrtCmd.applyTake ∉ (ddwrt_set_ap_mode c7_conn "Net" "pw").2 ∧
    DdwrtCmd.fastRestart ∈ (ddwrt_set_ap_mode c7_conn "Net" "pw").2 :=
  (c7_same_role_fast_path c7_conn "Net" "pw" "Net" "pw").2.1 rfl

/-! ## Provision-list run: claims C9 and C6 -/

/-- C9: re-running provision-list over a queue in which every instruction
already carries CompletedTime processes zero instructions (the readiness
check of `check_for_device_queue` exits first) and leaves both the
instruction queue store and the device record store unchanged. -/
theorem c9_completed_queue_unchanged (queue : List InstrRec)
    (db0 : List (String × InstrRec)) (nodes : List RouterNode)
    (group : Option String) (env : Nat → InstrEnv) (c0 : Nat)
    (h : ∀ r ∈ queue, r.completedTime ≠ none) :
    (provision_list queue db0 nodes group env c0).persisted = queue ∧
    (provision_list queue db0 nodes group env c0).db = db0 ∧
    (provision_list queue db0 nodes group env c0).setup = 0 ∧
    (provision_list queue db0 nodes group env c0).success = 0 := by
  have hany : queue.any (queueReady group) = false := by
    rw [Bool.eq_false_iff]
    intro hc
    rcases List.any_eq_true.mp hc with ⟨r, hr, hready⟩
    have h1 : r.completedTime.isNone = true := by
      simp only [queueReady, Bool.and_eq_true] at hready
      exact hready.1
    exact h r hr (Option.isNone_iff_eq_none.mp h1)
  by_cases hq : queue.length == 0
  · simp [provision_list, check_for_device_queue, hq]
  · simp [provision_list, check_for_device_queue, hq, hany]

/-- c9_rec_done is a concrete instruction that already completed. -/
def c9_rec_done : InstrRec :=
  { ssid := some "Net9", group := none, insertTime := some 1,
    inProgressTime := some 2, completedTime := some 3, confirmedTime := some 4,
    factorySsid := some "shelly1-0009" }

/-- c9_completed_queue_unchanged_witness evaluates the claim on a
one-record all-complete queue. -/
theorem c9_completed_queue_unchanged_witness :
    (provision_list [c9_rec_done] [] [] none (fun _ =>
        { factorySsid := "f", dropOk := fun _ => true, locateOk := true,
          mac := "m" }) 0).persisted = [c9_rec_done] ∧
    (provision_list [c9_rec_done] [] [] none (fun _ =>
        { factorySsid := "f", dropOk := fun _ => true, locateOk := true,
          mac := "m" }) 0).db = [] ∧
    (provision_list [c9_rec_done] [] [] none (fun _ =>
        { factorySsid := "f", dropOk := fun _ => true, locateOk := true,
          mac := "m" }) 0).setup = 0 ∧
    (provision_list [c9_rec_done] [] [] none (fun _ =>
        { factorySsid := "f", dropOk := fun _ => true, locateOk := true,
          mac := "m" }) 0).success = 0 :=
  c9_completed_queue_unchanged [c9_rec_done] [] [] none _ 0 (by decide)

/-- C6: with a ready instruction in the queue, a control-device set with
no AP-capable member (or one with an AP-capable member but no STA-capable
member) makes role assignment fail with the corresponding configuration
exit, which is fatal to the entire run: no instruction is processed and
both stores are unchanged. -/
theorem c6_config_error_fatal (queue : List InstrRec)
    (db0 : List (String × InstrRec)) (nodes : List RouterNode)
    (group : Option String) (env : Nat → InstrEnv) (c0 : Nat)
    (hready : ∃ r ∈ queue, queueReady group r = true) :
    ((∀ n ∈ nodes, n.apCapable = false) →
      ddwrt_choose_roles nodes = RolesResult.errNoAp ∧
      provision_list queue db0 nodes group env c0
        = { exit := RunExit.exitConfigNoAp, persisted := queue, db := db0,
            setup := 0, success := 0 }) ∧
    (((∃ n ∈ nodes, n.apCapable = true) ∧ ∀ n ∈ nodes, n.staCapable = false) →
      ddwrt_choose_roles nodes = RolesResult.errNoSta ∧
      provision_list queue db0 nodes group env c0
        = { exit := RunExit.exitConfigNoSta, persisted := queue, db := db0,
            setup := 0, success := 0 }) := by
  rcases hready with ⟨r, hr, hready⟩
  have hlen : (queue.length == 0) = false := by
    have : queue ≠ [] := List.ne_nil_of_mem hr
    simp [List.length_eq_zero, this]
  have hany : queue.any (queueReady group) = true :=
    List.any_eq_true.mpr ⟨r, hr, hready⟩
  have hq : check_for_device_queue queue group = none := by
    simp [check_for_device_queue, hlen, hany]
  constructor
  · intro hna
    have hroles := choose_roles_no_ap nodes hna
    exact ⟨hroles, by simp [provision_list, hq, hroles]⟩
  · intro hns
    have hroles := choose_roles_no_sta nodes hns.1 hns.2
    exact ⟨hroles, by simp [provision_list, hq, hroles]⟩

/-- c6_rec is a concrete ready instruction. -/
def c6_rec : InstrRec :=
  { ssid := some "Net6", group := none, insertTime := some 1,
    inProgressTime := none, completedTime := none, confirmedTime := none,
    factorySsid := none }

/-- c6_env is a concrete oracle (never consulted in the C6 scenario). -/
def c6_env : Nat → InstrEnv := fun _ =>
  { factorySsid := "f", dropOk := fun _ => true, locateOk := true, mac := "m" }

/-- c6_config_error_fatal_witness evaluates the no-AP-capable case on a
single STA-only control device. -/
theorem c6_config_error_fatal_witness :
    ddwrt_choose_roles [⟨false, true, "sta"⟩] = RolesResult.errNoAp ∧
    provision_list [c6_rec] [] [⟨false, true, "sta"⟩] none c6_env 0
      = { exit := RunExit.exitConfigNoAp, persisted := [c6_rec], db := [],
          setup := 0, success := 0 } :=
  (c6_config_error_fatal [c6_rec] [] [⟨false, true, "sta"⟩] none c6_env 0
    ⟨c6_rec, List.mem_singleton.mpr rfl, by decide⟩).1 (by decide)

/-! ## Provision-list run: claim C2 -/

/-- A record that the instruction loop does not skip has no
CompletedTime. -/
theorem not_skipped_completed (group : Option String) (r : InstrRec)
    (h : recSkipped group r = false) : r.completedTime = none := by
  cases hc : r.completedTime with
  | none => rfl
  | some t =>
    simp only [recSkipped, hc] at h
    simp at h

/-- A record that the instruction loop does not skip is ready in the
sense of `check_for_device_queue`. -/
theorem queueReady_of_not_skipped (group : Option String) (r : InstrRec)
    (h : recSkipped group r = false) : queueReady group r = true := by
  have hcomp : r.completedTime = none := not_skipped_completed group r h
  cases group with
  | none => simp [queueReady, groupReady, hcomp]
  | some g =>
    cases hg : groupReady (some g) r with
    | true => simp [queueReady, hcomp, hg]
    | false =>
      simp only [recSkipped, hg] at h
      simp at h

/-- The attempts loop finds no convergent attempt when every drop-wait
fails. -/
theorem attemptsResult_none (dropOk : Nat → Bool) (h : ∀ k, dropOk k = false) :
    attemptsResult dropOk = none := by
  apply List.find?_eq_none.mpr
  intro x _
  simp [h x]

/-- The attempts loop breaks at the first attempt when its drop-wait
converges. -/
theorem attemptsResult_first (dropOk : Nat → Bool) (h : dropOk 1 = true) :
    attemptsResult dropOk = some 1 := by
  have hl : (List.range 10).map (fun i => i + 1) = [1, 2, 3, 4, 5, 6, 7, 8, 9, 10] := by
    decide
  rw [attemptsResult, hl]
  exact List.find?_cons_of_pos _ h

/-- c2_rec_a is the first queued instruction of the counterexample. -/
def c2_rec_a : InstrRec :=
  { ssid := some "NetA", group := none, insertTime := some 1,
    inProgressTime := none, completedTime := none, confirmedTime := none,
    factorySsid := none }

/-- c2_rec_b is the second queued instruction of the counterexample. -/
def c2_rec_b : InstrRec :=
  { ssid := some "NetB", group := none, insertTime := some 2,
    inProgressTime := none, completedTime := none, confirmedTime := none,
    factorySsid := none }

/-- run_nodes is a working control-device pair (role assignment picks
indices 0 and 1). -/
def run_nodes : List RouterNode :=
  [⟨true, true, "ap"⟩, ⟨true, true, "sta"⟩]

/-- c2_env_fail is an oracle under which every programming attempt's
drop-wait fails. -/
def c2_env_fail : Nat → InstrEnv := fun _ =>
  { factorySsid := "shelly1-0001", dropOk := fun _ => false, locateOk := true,
    mac := "AA:BB" }

/-- c2_counterexample refutes the claim that retry exhaustion aborts only
the current instruction and that processing continues with the next
queued instruction: on a queue of two ready instructions whose first
exhausts its 10 programming attempts, the run ends at the `sys.exit` of
line 1990 with only one instruction started, and the second instruction
is still untouched in the persisted queue (no InProgressTime, no
CompletedTime) — it was never processed. -/
theorem c2_counterexample :
    (provision_list [c2_rec_a, c2_rec_b] [] run_nodes none c2_env_fail 100).exit
      = RunExit.exitAttemptsExhausted ∧
    (provision_list [c2_rec_a, c2_rec_b] [] run_nodes none c2_env_fail 100).setup = 1 ∧
    (provision_list [c2_rec_a, c2_rec_b] [] run_nodes none c2_env_fail 100).success = 0 ∧
    (provision_list [c2_rec_a, c2_rec_b] [] run_nodes none c2_env_fail 100).persisted.getLast?
      = some c2_rec_b ∧
    c2_rec_b.inProgressTime = none ∧ c2_rec_b.completedTime = none :=
  ⟨by decide, by decide, by decide, by decide, rfl, rfl⟩

/-- C2 (amended): when the bounded retries of a provisioning step are
exhausted — the target device fails to leave its factory network after 10
programming attempts (line 1990), or the device cannot be located on the
target network (line 2016) — the current instruction is left without
CompletedTime in the persisted queue, but the entire run terminates at
once via `sys.exit`: no further queued instruction is processed. -/
theorem c2_retry_exhaustion_ends_run (r : InstrRec) (rest : List InstrRec)
    (db0 : List (String × InstrRec)) (nodes : List RouterNode)
    (group : Option String) (env : Nat → InstrEnv) (c0 a s : Nat)
    (hskip : recSkipped group r = false)
    (hroles : ddwrt_choose_roles nodes = RolesResult.ok a s) :
    ((∀ k, (env 0).dropOk k = false) →
      provision_list (r :: rest) db0 nodes group env c0
        = { exit := RunExit.exitAttemptsExhausted,
            persisted := stepR1 c0 r (env 0) :: rest, db := db0,
            setup := 1, success := 0 } ∧
      (stepR1 c0 r (env 0)).completedTime = none) ∧
    ((env 0).dropOk 1 = true → (env 0).locateOk = false →
      provision_list (r :: rest) db0 nodes group env c0
        = { exit := RunExit.exitLocateFailed,
            persisted := stepR1 c0 r (env 0) :: rest, db := db0,
            setup := 1, success := 0 } ∧
      (stepR1 c0 r (env 0)).completedTime = none) := by
  have hready := queueReady_of_not_skipped group r hskip
  have hcomp : (stepR1 c0 r (env 0)).completedTime = none := by
    simp [stepR1, not_skipped_completed group r hskip]
  have hlen : (((r :: rest).length) == 0) = false := by simp
  have hany : (r :: rest).any (queueReady group) = true :=
    List.any_eq_true.mpr ⟨r, List.mem_cons_self r rest, hready⟩
  have hq : check_for_device_queue (r :: rest) group = none := by
    simp [check_for_device_queue, hlen, hany]
  constructor
  · intro hdrop
    have hfind : (attemptsResult (env 0).dropOk).isNone = true := by
      rw [attemptsResult_none _ hdrop]
      rfl
    exact ⟨by simp [provision_list, hq, hroles, runLoop, hskip, hfind], hcomp⟩
  · intro h1 hloc
    have hfind : (attemptsResult (env 0).dropOk).isNone = false := by
      rw [attemptsResult_first _ h1]
      rfl
    exact ⟨by simp [provision_list, hq, hroles, runLoop, hskip, hfind, hloc], hcomp⟩

/-- c2_retry_exhaustion_ends_run_witness evaluates the
attempts-exhaustion case on a one-instruction queue. -/
theorem c2_retry_exhaustion_ends_run_witness :
    provision_list [c2_rec_a] [] run_nodes none c2_env_fail 7
      = { exit := RunExit.exitAttemptsExhausted,
          persisted := [stepR1 7 c2_rec_a (c2_env_fail 0)], db := [],
          setup := 1, success := 0 } ∧
    (stepR1 7 c2_rec_a (c2_env_fail 0)).completedTime = none :=
  (c2_retry_exhaustion_ends_run c2_rec_a [] [] run_nodes none c2_env_fail 7 0 1
    (by decide) (by decide)).1 (fun _ => rfl)

/-! ## Provision-list run: claim C8 -/

/-- Stamp bounds are monotone in the clock. -/
theorem tsLe_mono (c c2 : Nat) (r : InstrRec) (h : tsLe c r = true)
    (hcc : c ≤ c2) : tsLe c2 r = true := by
  cases hi : r.insertTime <;> cases hp : r.inProgressTime <;>
    cases hco : r.completedTime <;> cases hcf : r.confirmedTime <;>
      simp [tsLe, stampLe, hi, hp, hco, hcf] at h ⊢ <;> omega

/-- A record that is ordered and has no CompletedTime has no
ConfirmedTime either. -/
theorem confirmed_none_of_ordered (r : InstrRec) (hord : tsOrdered r = true)
    (hcomp : r.completedTime = none) : r.confirmedTime = none := by
  cases hcf : r.confirmedTime with
  | none => rfl
  | some t => simp [tsOrdered, chainOk, hcomp, hcf] at hord

/-- The record persisted at the in-progress checkpoint is ordered. -/
theorem stepR1_ordered (c : Nat) (r : InstrRec) (e : InstrEnv)
    (hle : tsLe c r = true) (hins : r.insertTime.isSome = true)
    (hcomp : r.completedTime = none) (hconf : r.confirmedTime = none) :
    tsOrdered (stepR1 c r e) = true := by
  rcases Option.isSome_iff_exists.mp hins with ⟨t, ht⟩
  have hts : t ≤ c := by
    simp [tsLe, stampLe, ht] at hle
    exact hle.1.1.1
  simp [stepR1, tsOrdered, chainOk, ht, hcomp, hconf, hts]

/-- The record persisted at the completion checkpoint is ordered. -/
theorem stepR2_ordered (c : Nat) (r : InstrRec) (e : InstrEnv)
    (hle : tsLe c r = true) (hins : r.insertTime.isSome = true)
    (hconf : r.confirmedTime = none) :
    tsOrdered (stepR2 c r e) = true := by
  rcases Option.isSome_iff_exists.mp hins with ⟨t, ht⟩
  have hts : t ≤ c := by
    simp [tsLe, stampLe, ht] at hle
    exact hle.1.1.1
  simp [stepR2, stepR1, tsOrdered, chainOk, ht, hconf, hts]

/-- The record written to the device store is ordered. -/
theorem stepR3_ordered (c : Nat) (r : InstrRec) (e : InstrEnv)
    (hle : tsLe c r = true) (hins : r.insertTime.isSome = true) :
    tsOrdered (stepR3 c r e) = true := by
  rcases Option.isSome_iff_exists.mp hins with ⟨t, ht⟩
  have hts : t ≤ c := by
    simp [tsLe, stampLe, ht] at hle
    exact hle.1.1.1
  simp [stepR3, stepR2, stepR1, tsOrdered, chainOk, ht, hts]

/-- The record written to the device store carries all four stamps. -/
theorem stepR3_complete (c : Nat) (r : InstrRec) (e : InstrEnv)
    (hins : r.insertTime.isSome = true) :
    tsComplete (stepR3 c r e) = true := by
  simp [stepR3, stepR2, stepR1, tsComplete, hins]

/-- Dict assignment only keeps old entries or adds the assigned one. -/
theorem dbSet_mem (db : List (String × InstrRec)) (k : String) (v : InstrRec)
    (p : String × InstrRec) (h : p ∈ dbSet db k v) : p ∈ db ∨ p = (k, v) := by
  unfold dbSet at h
  split at h
  · rcases List.mem_map.mp h with ⟨q, hq, hqe⟩
    by_cases hk : (q.1 == k) = true
    · right
      rw [if_pos hk] at hqe
      exact hqe.symm
    · left
      rw [if_neg hk] at hqe
      rw [← hqe]
      exact hq
  · rcases List.mem_append.mp h with h1 | h1
    · exact Or.inl h1
    · right
      simpa using h1

/-- runLoop preserves the lifecycle ordering of every persisted record
and puts only fully stamped, ordered records into the device store. -/
theorem runLoop_ordered (group : Option String) (env : Nat → InstrEnv) :
    ∀ (rest done persisted : List InstrRec) (db : List (String × InstrRec))
      (c setup succ : Nat),
      (∀ r ∈ done, tsOrdered r = true) →
      (∀ r ∈ rest, tsOrdered r = true ∧ tsLe c r = true ∧ r.insertTime.isSome = true) →
      (∀ r ∈ persisted, tsOrdered r = true) →
      (∀ p ∈ db, tsOrdered p.2 = true ∧ tsComplete p.2 = true) →
      (∀ r ∈ (runLoop group env done rest persisted db c setup succ).persisted,
        tsOrdered r = true) ∧
      (∀ p ∈ (runLoop group env done rest persisted db c setup succ).db,
        tsOrdered p.2 = true ∧ tsComplete p.2 = true) := by
  intro rest
  induction rest with
  | nil =>
    intro done persisted db c setup succ _ _ hpers hdb
    exact ⟨hpers, hdb⟩
  | cons r rest ih =>
    intro done persisted db c setup succ hdone hrest hpers hdb
    rcases hrest r (List.mem_cons_self r rest) with ⟨hrord, hrle, hrins⟩
    have hrest2 : ∀ x ∈ rest, tsOrdered x = true ∧ tsLe c x = true ∧
        x.insertTime.isSome = true :=
      fun x hx => hrest x (List.mem_cons_of_mem r hx)
    by_cases hsk : recSkipped group r = true
    · rw [runLoop, if_pos hsk]
      apply ih (done ++ [r]) persisted db c setup succ
      · intro x hx
        rcases List.mem_append.mp hx with h1 | h1
        · exact hdone x h1
        · rw [List.mem_singleton.mp h1]
          exact hrord
      · exact hrest2
      · exact hpers
      · exact hdb
    · have hsk2 : recSkipped group r = false := by
        cases hv : recSkipped group r
        · rfl
        · exact absurd hv hsk
      have hcomp : r.completedTime = none := not_skipped_completed group r hsk2
      have hconf : r.confirmedTime = none := confirmed_none_of_ordered r hrord hcomp
      rw [runLoop, if_neg hsk]
      by_cases hfind : (attemptsResult (env setup).dropOk).isNone = true
      · rw [if_pos hfind]
        refine ⟨?_, hdb⟩
        intro x hx
        rcases List.mem_append.mp hx with h1 | h1
        · exact hdone x h1
        · rcases List.mem_cons.mp h1 with h2 | h2
          · rw [h2]
            exact stepR1_ordered c r (env setup) hrle hrins hcomp hconf
          · exact (hrest2 x h2).1
      · rw [if_neg hfind]
        by_cases hloc : (env setup).locateOk = true
        · rw [if_pos hloc]
          apply ih (done ++ [stepR3 c r (env setup)])
            (done ++ stepR2 c r (env setup) :: rest)
            (dbSet db (env setup).mac (stepR3 c r (env setup)))
            (c + 3) (setup + 1) (succ + 1)
          · intro x hx
            rcases List.mem_append.mp hx with h1 | h1
            · exact hdone x h1
            · rw [List.mem_singleton.mp h1]
              exact stepR3_ordered c r (env setup) hrle hrins
          · intro x hx
            rcases hrest2 x hx with ⟨h1, h2, h3⟩
            exact ⟨h1, tsLe_mono c (c + 3) x h2 (by omega), h3⟩
          · intro x hx
            rcases List.mem_append.mp hx with h1 | h1
            · exact hdone x h1
            · rcases List.mem_cons.mp h1 with h2 | h2
              · rw [h2]
                exact stepR2_ordered c r (env setup) hrle hrins hconf
              · exact (hrest2 x h2).1
          · intro p hp
            rcases dbSet_mem db (env setup).mac (stepR3 c r (env setup)) p hp with h1 | h1
            · exact hdb p h1
            · rw [h1]
              exact ⟨stepR3_ordered c r (env setup) hrle hrins,
                stepR3_complete c r (env setup) hrins⟩
        · rw [if_neg hloc]
          refine ⟨?_, hdb⟩
          intro x hx
          rcases List.mem_append.mp hx with h1 | h1
          · exact hdone x h1
          · rcases List.mem_cons.mp h1 with h2 | h2
            · rw [h2]
              exact stepR1_ordered c r (env setup) hrle hrins hcomp hconf
            · exact (hrest2 x h2).1

/-- C8: for a run started on a queue of well-formed records (ordered
stamps, stamps no later than the starting clock, InsertTime present) and
an empty device-record store, every record in the final persisted queue
satisfies Insert ≤ InProgress ≤ Completed ≤ Confirmed with a later stamp
present only when all earlier ones are (so an instruction that has not
reached a phase lacks that phase's stamp), and every record written to
the device store for a successfully completed instruction carries all
four stamps in order. -/
theorem c8_lifecycle_stamps (queue : List InstrRec) (nodes : List RouterNode)
    (group : Option String) (env : Nat → InstrEnv) (c0 : Nat)
    (h : ∀ r ∈ queue, tsOrdered r = true ∧ tsLe c0 r = true ∧
      r.insertTime.isSome = true) :
    (∀ r ∈ (provision_list queue [] nodes group env c0).persisted,
      tsOrdered r = true) ∧
    (∀ p ∈ (provision_list queue [] nodes group env c0).db,
      tsOrdered p.2 = true ∧ tsComplete p.2 = true) := by
  have hqord : ∀ r ∈ queue, tsOrdered r = true := fun r hr => (h r hr).1
  unfold provision_list
  cases hq : check_for_device_queue queue group with
  | some e =>
    exact ⟨hqord, by simp⟩
  | none =>
    cases hroles : ddwrt_choose_roles nodes with
    | ok a s =>
      exact runLoop_ordered group env queue [] queue [] c0 0 0
        (by simp) h hqord (by simp)
    | errNoAp => exact ⟨hqord, by simp⟩
    | errNoSta => exact ⟨hqord, by simp⟩
    | indexError => exact ⟨hqord, by simp⟩

/-- c8_rec is a concrete fresh instruction with only InsertTime. -/
def c8_rec : InstrRec :=
  { ssid := some "Net8", group := none, insertTime := some 3,
    inProgressTime := none, completedTime := none, confirmedTime := none,
    factorySsid := none }

/-- c8_env is an oracle under which the single instruction succeeds. -/
def c8_env : Nat → InstrEnv := fun _ =>
  { factorySsid := "shelly1-0008", dropOk := fun _ => true, locateOk := true,
    mac := "MAC8" }

/-- c8_lifecycle_stamps_witness applies the claim to a successful
one-instruction run and reads off the ordered, fully stamped device
record. -/
theorem c8_lifecycle_stamps_witness :
    tsOrdered (stepR3 10 c8_rec (c8_env 0)) = true ∧
    tsComplete (stepR3 10 c8_rec (c8_env 0)) = true :=
  (c8_lifecycle_stamps [c8_rec] run_nodes none c8_env 10 (by decide)).2
    ("MAC8", stepR3 10 c8_rec (c8_env 0)) (by decide)
